import Mathlib

/-!
Shallow embedding of `atmo.py`, a home weather station that samples an
indoor BME680 sensor and an optional outdoor W1 temperature sensor and
forwards readings to a Graphite/StatsD collector over UDP.

External collaborators (the bme680 / w1thermsensor drivers, the OS network
stack, the logging sink and Python's float rendering) are modelled as
oracle data carried in the sensor structures and as explicit outcome
parameters.  Every side effect (log line, sleep, sensor read, socket
operation, datagram) is recorded in an event trace, so that the claims
about counts and ordering of effects become statements about lists.
-/

namespace Atmo

/-- A Python float value as the program observes it: the drivers hand the
program opaque float objects, and the only operation `atmo.py` performs on
them is string interpolation via an f-string.  We model a float by its
decimal rendering (`repr`): a sign, an integer part, and the digits after
the decimal point (Python's `str` of a float always prints at least one
fractional digit, e.g. `1013.0`). -/
structure PyFloat where
  neg : Bool
  intPart : Nat
  fracDigits : String
deriving DecidableEq, Repr

/-- The string Python's f-string produces for a float value. -/
def pyStr (f : PyFloat) : String :=
  (if f.neg then "-" else "") ++ toString f.intPart ++ "." ++ f.fracDigits

/-- The string Python's f-string produces for an `Optional[float]`:
`None` renders as the four characters `None`. -/
def pyStrOpt : Option PyFloat → String
  | none => "None"
  | some f => pyStr f

/-- The `Sample` frozen dataclass of `atmo.py` (lines 44-48):
`temperature` is required, `humidity` and `pressure` default to `None`. -/
structure Sample where
  temperature : PyFloat
  humidity : Option PyFloat
  pressure : Option PyFloat
deriving DecidableEq, Repr

/-- Constants imported from `bme680.constants`. -/
def DISABLE_GAS_MEAS : Nat := 0

def OS_NONE : Nat := 0

def OS_16X : Nat := 5

def OS_8X : Nat := 4

/-- Outcome of one `sensor.get_sensor_data()` call on the BME680 driver,
an external collaborator: it can raise `OSError`, return `False`
(no new data), or return `True` with fresh data fields. -/
inductive IndoorReadOutcome where
  | osError : IndoorReadOutcome
  | noData : IndoorReadOutcome
  | newData (t h p : PyFloat) : IndoorReadOutcome
deriving DecidableEq, Repr

/-- The BME680 handle: its configuration registers (written by the
`set_*` driver calls) together with the oracle describing what the next
`get_sensor_data()` call does. -/
structure IndoorSensor where
  gasStatus : Nat
  humidityOversample : Nat
  temperatureOversample : Nat
  pressureOversample : Nat
  readOutcome : IndoorReadOutcome
deriving DecidableEq, Repr

/-- The W1ThermSensor handle: the oracle value its `get_temperature()`
call returns. -/
structure OutdoorSensor where
  temperature : PyFloat
deriving DecidableEq, Repr

/-- Observable side effects of the program, in order of occurrence. -/
inductive Ev where
  | logError (msg : String) : Ev
  | logInfo (msg : String) : Ev
  | sleep (seconds : ℚ) : Ev
  | initSensor (oversampling : Nat) : Ev
  | readIndoor : Ev
  | readOutdoor : Ev
  | sockOpen : Ev
  | sockSetTimeout (seconds : ℚ) : Ev
  | sendto (payload : String) (delivered : Bool) : Ev
  | sockClose : Ev
deriving DecidableEq, Repr

/-- The configuration values of `atmo.py` that the sampling pipeline
reads (lines 17-34); resolved once at startup. -/
structure Config where
  metricsPfx : String
  metricTemperatureIndoor : String
  metricTemperatureOutdoor : String
  metricPressure : String
  metricHumidity : String
  graphiteTimeout : ℚ
deriving DecidableEq, Repr

/-- The default configuration (every metric-name key unset). -/
def defaultConfig : Config :=
  { metricsPfx := "atmo"
    metricTemperatureIndoor := "temperature_indoor"
    metricTemperatureOutdoor := "temperature_outdoor"
    metricPressure := "pressure"
    metricHumidity := "humidity"
    graphiteTimeout := 1 }

/-- `sensor.set_gas_status(v)` (driver register write). -/
def set_gas_status (s : IndoorSensor) (v : Nat) : IndoorSensor :=
  { s with gasStatus := v }

/-- `sensor.set_humidity_oversample(v)`. -/
def set_humidity_oversample (s : IndoorSensor) (v : Nat) : IndoorSensor :=
  { s with humidityOversample := v }

/-- `sensor.set_temperature_oversample(v)`. -/
def set_temperature_oversample (s : IndoorSensor) (v : Nat) : IndoorSensor :=
  { s with temperatureOversample := v }

/-- `sensor.set_pressure_oversample(v)`. -/
def set_pressure_oversample (s : IndoorSensor) (v : Nat) : IndoorSensor :=
  { s with pressureOversample := v }

/-- `initalize_indoor_sensor` (lines 79-86, source spelling kept):
disables gas measurement and sets the three oversampling registers to
`oversampling` (Python default `OS_8X`). -/
def initalize_indoor_sensor (s : IndoorSensor) (oversampling : Nat) : IndoorSensor :=
  set_pressure_oversample
    (set_temperature_oversample
      (set_humidity_oversample
        (set_gas_status s DISABLE_GAS_MEAS) oversampling) oversampling) oversampling

/-- `get_indoor_sample` (lines 89-104).  `sensor.get_sensor_data()` is
driven by the oracle in the handle: on `OSError` the handler re-runs
`initalize_indoor_sensor(sensor)` (default oversampling `OS_8X`) and
returns `None`; on a `False` status it returns `None`; otherwise it
builds a `Sample` from `sensor.data.temperature/pressure/humidity`.
Returns the sample, the (possibly reinitialized) handle, and the event
trace.  Totality of this definition mirrors that the Python function
never lets the modelled fault escape. -/
def get_indoor_sample (s : IndoorSensor) :
    Option Sample × IndoorSensor × List Ev :=
  match s.readOutcome with
  | IndoorReadOutcome.osError =>
      (none, initalize_indoor_sensor s OS_8X, [Ev.readIndoor, Ev.initSensor OS_8X])
  | IndoorReadOutcome.noData => (none, s, [Ev.readIndoor])
  | IndoorReadOutcome.newData t h p =>
      (some { temperature := t, humidity := some h, pressure := some p }, s,
        [Ev.readIndoor])

/-- `get_outdoor_sample` (lines 107-111): wraps `sensor.get_temperature()`
in a `Sample` whose humidity and pressure keep their `None` defaults. -/
def get_outdoor_sample (o : OutdoorSensor) : Sample × List Ev :=
  ({ temperature := o.temperature, humidity := none, pressure := none },
    [Ev.readOutdoor])

/-- The StatsD payload `f"{METRICS_PREFIX}.{metric_name}:{metric_value}|{metric_type}"`
built on line 130. -/
def mkPayload (pfx name : String) (value : Option PyFloat) (mtype : String) : String :=
  pfx ++ "." ++ name ++ ":" ++ pyStrOpt value ++ "|" ++ mtype

/-- `send_metric` (lines 114-137).  `ok` is the network oracle: `true`
when the datagram is delivered, `false` when `sock.sendto` raises
`OSError` (network unreachable / timeout), which the function swallows
with `pass`.  In both cases the socket is opened, the timeout is set, the
send is attempted, and the `finally` block closes the socket.  The
function is total and returns only the trace: it never raises. -/
def send_metric (cfg : Config) (metric_name : String) (metric_value : Option PyFloat)
    (metric_type : String) (ok : Bool) : List Ev :=
  [Ev.sockOpen, Ev.sockSetTimeout cfg.graphiteTimeout,
    Ev.sendto (mkPayload cfg.metricsPfx metric_name metric_value metric_type) ok,
    Ev.sockClose]

/-- Pop the next network-send outcome from the oracle list; an exhausted
list means the network keeps delivering. -/
def takeNet (net : List Bool) : Bool × List Bool :=
  (net.headD true, net.tail)

/-- The body of the `if indoor_sample := ...` branch of `capture_sample`
(lines 148-150): three unconditional `send_metric` calls for humidity,
pressure and indoor temperature of the bound sample, in that order. -/
def emit_indoor_sample (cfg : Config) (sample : Sample) (net : List Bool) :
    List Ev × List Bool :=
  let o1 := takeNet net
  let e1 := send_metric cfg cfg.metricHumidity sample.humidity "g" o1.1
  let o2 := takeNet o1.2
  let e2 := send_metric cfg cfg.metricPressure sample.pressure "g" o2.1
  let o3 := takeNet o2.2
  let e3 := send_metric cfg cfg.metricTemperatureIndoor (some sample.temperature) "g" o3.1
  (e1 ++ e2 ++ e3, o3.2)

/-- `capture_sample` (lines 140-155).  A `BME680` / `W1ThermSensor`
object is always truthy, so `if indoor_sensor:` is presence of the
handle; a `Sample` dataclass instance is always truthy, so the walrus
test is `get_indoor_sample` returning a sample.  Returns the event trace
and the (possibly reinitialized) indoor handle. -/
def capture_sample (cfg : Config) (indoor_sensor : Option IndoorSensor)
    (outdoor_sensor : Option OutdoorSensor) (net : List Bool) :
    List Ev × Option IndoorSensor :=
  let indoorStep :
      List Ev × Option IndoorSensor × List Bool :=
    match indoor_sensor with
    | none => ([], none, net)
    | some s =>
        match get_indoor_sample s with
        | (some sample, s', evRead) =>
            let emitted := emit_indoor_sample cfg sample net
            (evRead ++ emitted.1, some s', emitted.2)
        | (none, s', evRead) =>
            (evRead ++ [Ev.logError "Unable to read data from the indoor sensor"],
              some s', net)
  let outdoorEvs : List Ev :=
    match outdoor_sensor with
    | none => []
    | some o =>
        let rd := get_outdoor_sample o
        rd.2 ++
          send_metric cfg cfg.metricTemperatureOutdoor (some rd.1.temperature) "g"
            (takeNet indoorStep.2.2).1
  (indoorStep.1 ++ outdoorEvs, indoorStep.2.1)

/-- The payloads of the datagram sends attempted in a trace, in order. -/
def sendtoPayloads (evs : List Ev) : List String :=
  evs.filterMap fun e =>
    match e with
    | Ev.sendto p _ => some p
    | _ => none

/-- Number of sensor-read operations in a trace. -/
def readCount (evs : List Ev) : Nat :=
  (evs.filter fun e =>
    match e with
    | Ev.readIndoor => true
    | Ev.readOutdoor => true
    | _ => false).length

/-- Outcome of one `BME680(SENSOR_INDOOR_I2C_ADDR)` constructor call, an
external collaborator: it yields a handle or raises `RuntimeError` /
`PermissionError` (the recoverable failures `get_indoor_sensor`
catches). -/
inductive OpenOutcome where
  | ok (sensor : IndoorSensor) : OpenOutcome
  | recoverableError : OpenOutcome
deriving DecidableEq, Repr

/-- Result of running `get_indoor_sensor` against a finite oracle trace of
constructor outcomes.  `loopContinues` means the trace was exhausted with
the `while True` loop still running (the call has not returned yet);
`returnedNone` is the dead `return None` on line 66, reachable only if
the `while True` loop exited normally. -/
inductive AcquireResult where
  | acquired (sensor : IndoorSensor) (evs : List Ev) : AcquireResult
  | loopContinues : AcquireResult
  | returnedNone (evs : List Ev) : AcquireResult
deriving DecidableEq, Repr

/-- The log line of line 63; the Python message also interpolates the
retry interval, which the trace records separately in the `sleep` event. -/
def retryLogMsg : String := "Sensor not found. Retrying..."

/-- `get_indoor_sensor` (lines 51-66): `while True:` try the constructor;
on success return the handle; on a recoverable error log, sleep
`error_interval` seconds and continue.  The trailing `return None` is
only reachable if the `while True` loop exits normally, which it cannot
(no `break`); accordingly no branch below produces `returnedNone`. -/
def get_indoor_sensor (error_interval : ℚ) : List OpenOutcome → AcquireResult
  | [] => AcquireResult.loopContinues
  | OpenOutcome.ok s :: _ => AcquireResult.acquired s []
  | OpenOutcome.recoverableError :: rest =>
      match get_indoor_sensor error_interval rest with
      | AcquireResult.acquired s evs =>
          AcquireResult.acquired s
            (Ev.logError retryLogMsg :: Ev.sleep error_interval :: evs)
      | AcquireResult.loopContinues => AcquireResult.loopContinues
      | AcquireResult.returnedNone evs =>
          AcquireResult.returnedNone
            (Ev.logError retryLogMsg :: Ev.sleep error_interval :: evs)

/-- Outcome of one `W1ThermSensor()` constructor call: a handle, or any
exception (`except Exception`). -/
inductive OutdoorOpenOutcome where
  | ok (sensor : OutdoorSensor) : OutdoorOpenOutcome
  | raisesAny : OutdoorOpenOutcome
deriving DecidableEq, Repr

/-- `get_outdoor_sensor` (lines 69-76): one non-retrying attempt; any
exception yields `None`. -/
def get_outdoor_sensor : OutdoorOpenOutcome → Option OutdoorSensor
  | OutdoorOpenOutcome.ok s => some s
  | OutdoorOpenOutcome.raisesAny => none

/-- The sleep the `ensure_duration` context manager (lines 158-168) adds
after its body: `duration = time_end - time_start`; sleep
`expected_duration - duration` when `duration < expected_duration`, else
nothing. -/
def ensure_duration_sleep (expected_duration duration : ℚ) : ℚ :=
  if duration < expected_duration then expected_duration - duration else 0

/-- The wall-clock time at which the next cycle starts, when a cycle
starts at `time_start`, its body (one `capture_sample`) takes
`body_duration`, and the cycle runs inside
`ensure_duration expected_duration`. -/
def ensure_duration_next (expected_duration time_start body_duration : ℚ) : ℚ :=
  let time_end := time_start + body_duration
  time_end + ensure_duration_sleep expected_duration (time_end - time_start)

/-- How the bootstrap part of `main` (lines 171-184) exits. -/
inductive BootstrapOutcome where
  | abortLogged : BootstrapOutcome
  | nameErrorCrash : BootstrapOutcome
  | enterLoop : BootstrapOutcome
deriving DecidableEq, Repr

/-- The branch on line 177 of `main`:
`if not (sensor_outdoor and sendor_indoor):`.  `sendor_indoor` is an
undefined name (the variable assigned on line 176 is `sensor_indoor`), so
Python evaluates the condition as follows: when `sensor_outdoor` is
falsy (`None`), `and` short-circuits, the condition is true, and `main`
logs "Unable to acquire any sensor, exiting" and returns; when
`sensor_outdoor` is truthy, evaluating `sendor_indoor` raises a
`NameError` that propagates out of `main` and crashes the process.  The
`sensor_indoor` argument is never consulted; the `enterLoop` arm (log
"Sensors acquired", `initalize_indoor_sensor`, `while True`) is
unreachable. -/
def mainBootstrapCheck (sensor_outdoor : Option OutdoorSensor)
    (sensor_indoor : Option IndoorSensor) : BootstrapOutcome :=
  match sensor_outdoor, sensor_indoor with
  | none, _ => BootstrapOutcome.abortLogged
  | some _, _ => BootstrapOutcome.nameErrorCrash

/-- Valid oversampling levels of the BME680 driver constants
(`OS_NONE` = 0 through `OS_16X` = 5). -/
def validOversample (n : Nat) : Prop := n ≤ OS_16X

instance (n : Nat) : Decidable (validOversample n) :=
  inferInstanceAs (Decidable (n ≤ OS_16X))

/-- A concrete BME680 handle used by several concrete evaluations. -/
def exampleIndoorSensor : IndoorSensor :=
  { gasStatus := 1, humidityOversample := 0, temperatureOversample := 0,
    pressureOversample := 0, readOutcome := IndoorReadOutcome.noData }

/-- A concrete W1 handle reading 18.0 degrees. -/
def exampleOutdoorSensor : OutdoorSensor :=
  { temperature := { neg := false, intPart := 18, fracDigits := "0" } }

/-- The datagram payloads a `capture_sample` call attempts, summarized by
the presence of each handle and the indoor read oracle. -/
def expectedPayloads (cfg : Config) (indoor : Option IndoorSensor)
    (outdoor : Option OutdoorSensor) : List String :=
  (match indoor with
    | none => []
    | some s =>
        match s.readOutcome with
        | IndoorReadOutcome.newData t h p =>
            [mkPayload cfg.metricsPfx cfg.metricHumidity (some h) "g",
              mkPayload cfg.metricsPfx cfg.metricPressure (some p) "g",
              mkPayload cfg.metricsPfx cfg.metricTemperatureIndoor (some t) "g"]
        | _ => []) ++
  (match outdoor with
    | none => []
    | some o => [mkPayload cfg.metricsPfx cfg.metricTemperatureOutdoor (some o.temperature) "g"])

theorem sendtoPayloads_append (a b : List Ev) :
    sendtoPayloads (a ++ b) = sendtoPayloads a ++ sendtoPayloads b := by
  simp [sendtoPayloads]

theorem sendtoPayloads_send_metric (cfg : Config) (name : String)
    (v : Option PyFloat) (mtype : String) (ok : Bool) :
    sendtoPayloads (send_metric cfg name v mtype ok) =
      [mkPayload cfg.metricsPfx name v mtype] := rfl

/-- The attempted payloads of one cycle depend only on the handles and the
read oracle, never on the network oracle. -/
theorem capture_sample_payloads (cfg : Config) (indoor : Option IndoorSensor)
    (outdoor : Option OutdoorSensor) (net : List Bool) :
    sendtoPayloads (capture_sample cfg indoor outdoor net).1 =
      expectedPayloads cfg indoor outdoor := by
  rcases indoor with _ | s
  · rcases outdoor with _ | o <;>
      simp [capture_sample, expectedPayloads, sendtoPayloads_append,
        get_outdoor_sample, send_metric, sendtoPayloads]
  · rcases s with ⟨g, ho, tos, po, oc⟩
    rcases oc with _ | _ | ⟨t, h, p⟩ <;> rcases outdoor with _ | o <;>
      simp [capture_sample, expectedPayloads, get_indoor_sample,
        emit_indoor_sample, get_outdoor_sample, send_metric,
        sendtoPayloads_append, sendtoPayloads]

/-- C1: the claim says bootstrap aborts only when both sensors are
unavailable and that with at least one handle present it initializes the
indoor handle and enters the scheduler loop.  The code disagrees: the
line-177 branch evaluates `not (sensor_outdoor and sendor_indoor)` with
the misspelled, undefined name `sendor_indoor`, so with the outdoor
handle absent it logs the fatal line and returns even though the indoor
handle is present, and with the outdoor handle present it raises
`NameError`; the loop is entered on no input at all. -/
theorem C1_bootstrap_never_enters_loop :
    mainBootstrapCheck none (some exampleIndoorSensor) = BootstrapOutcome.abortLogged
    ∧ mainBootstrapCheck (some exampleOutdoorSensor) (some exampleIndoorSensor) =
        BootstrapOutcome.nameErrorCrash
    ∧ ∀ (o : Option OutdoorSensor) (i : Option IndoorSensor),
        mainBootstrapCheck o i = BootstrapOutcome.abortLogged
        ∨ mainBootstrapCheck o i = BootstrapOutcome.nameErrorCrash :=
  ⟨rfl, rfl, fun o i => by cases o <;> simp [mainBootstrapCheck]⟩

/-- A `Sample` whose humidity and pressure fields are absent (the
dataclass defaults), used to test the claimed per-field skipping. -/
def sampleMissingFields : Sample :=
  { temperature := { neg := false, intPart := 21, fracDigits := "5" },
    humidity := none, pressure := none }

/-- C2 counterexample: the claim says each of the three sends is skipped
individually when the corresponding `Sample` field is absent.  The
emission block of `capture_sample` (lines 148-150) has no such
conditional: applied to a sample with absent humidity and pressure it
still attempts all three sends, interpolating `None` into the payload,
instead of skipping two of them. -/
theorem C2_absent_fields_not_skipped :
    sendtoPayloads (emit_indoor_sample defaultConfig sampleMissingFields []).1 =
      ["atmo.humidity:None|g", "atmo.pressure:None|g", "atmo.temperature_indoor:21.5|g"]
    ∧ (sendtoPayloads (emit_indoor_sample defaultConfig sampleMissingFields []).1).length = 3 := by
  exact ⟨rfl, rfl⟩

/-- C2 (amended): in every cycle in which the indoor handle is present
and the indoor read yields a `Sample`, `capture_sample` performs exactly
three metric sends — humidity, pressure, indoor temperature — using the
configured metric names and the configured name pfx; the sends are
unconditional (no per-field skipping exists), and in such cycles all
three fields are populated, so all three carry field values. -/
theorem C2_indoor_three_sends (cfg : Config) (g ho tos po : Nat)
    (t h p : PyFloat) (net : List Bool) :
    sendtoPayloads (capture_sample cfg
        (some { gasStatus := g, humidityOversample := ho, temperatureOversample := tos,
                pressureOversample := po,
                readOutcome := IndoorReadOutcome.newData t h p }) none net).1 =
      [mkPayload cfg.metricsPfx cfg.metricHumidity (some h) "g",
        mkPayload cfg.metricsPfx cfg.metricPressure (some p) "g",
        mkPayload cfg.metricsPfx cfg.metricTemperatureIndoor (some t) "g"] := by
  rw [capture_sample_payloads]
  rfl

/-- C3: `get_indoor_sample` is total over every modelled driver outcome
(the low-level `OSError` never escapes the adapter).  On the fault it
re-runs `initalize_indoor_sensor` on the handle exactly once (one
`initSensor` event, at the default `OS_8X` level) and returns `none`
with no retry; on a no-new-data status it returns `none` untouched; on
fresh data it returns a `Sample` populated from temperature, humidity
and pressure. -/
theorem C3_indoor_read_fault_handling (s0 : IndoorSensor) (t h p : PyFloat) :
    get_indoor_sample { s0 with readOutcome := IndoorReadOutcome.osError } =
      (none,
        initalize_indoor_sensor { s0 with readOutcome := IndoorReadOutcome.osError } OS_8X,
        [Ev.readIndoor, Ev.initSensor OS_8X])
    ∧ ((get_indoor_sample
        { s0 with readOutcome := IndoorReadOutcome.osError }).2.2.count
          (Ev.initSensor OS_8X)) = 1
    ∧ get_indoor_sample { s0 with readOutcome := IndoorReadOutcome.noData } =
      (none, { s0 with readOutcome := IndoorReadOutcome.noData }, [Ev.readIndoor])
    ∧ ((get_indoor_sample
        { s0 with readOutcome := IndoorReadOutcome.noData }).2.2.count
          (Ev.initSensor OS_8X)) = 0
    ∧ get_indoor_sample { s0 with readOutcome := IndoorReadOutcome.newData t h p } =
      (some { temperature := t, humidity := some h, pressure := some p },
        { s0 with readOutcome := IndoorReadOutcome.newData t h p },
        [Ev.readIndoor]) := by
  refine ⟨rfl, ?_, rfl, ?_, rfl⟩ <;>
    simp [get_indoor_sample, List.count_cons, List.count_nil]

/-- C4: one scheduler cycle under `ensure_duration` with target interval
`T` and body duration `D` sleeps exactly `T - D` when `D < T`, making the
next cycle start exactly `T` after this one started, and sleeps nothing
when `D ≥ T`, making the next cycle start immediately at `t + D`. -/
theorem C4_cycle_timing (T t D : ℚ) :
    (D < T → ensure_duration_sleep T D = T - D ∧ ensure_duration_next T t D = t + T)
    ∧ (T ≤ D → ensure_duration_sleep T D = 0 ∧ ensure_duration_next T t D = t + D) := by
  constructor
  · intro hlt
    have hs : ensure_duration_sleep T D = T - D := by
      simp [ensure_duration_sleep, hlt]
    refine ⟨hs, ?_⟩
    simp [ensure_duration_next, hs]
  · intro hge
    have hs : ensure_duration_sleep T D = 0 := by
      simp [ensure_duration_sleep, not_lt.mpr hge]
    refine ⟨hs, ?_⟩
    simp [ensure_duration_next, hs]

/-- Witness for C4 at `T = 5`, `t = 0`, `D = 2` (under-run) and `T = 1`,
`t = 0`, `D = 3` (over-run). -/
theorem C4_cycle_timing_witness :
    ((2 : ℚ) < 5 ∧ ensure_duration_sleep 5 2 = 5 - 2 ∧ ensure_duration_next 5 0 2 = 0 + 5)
    ∧ ((1 : ℚ) ≤ 3 ∧ ensure_duration_sleep 1 3 = 0 ∧ ensure_duration_next 1 0 3 = 0 + 3) := by
  refine ⟨⟨by norm_num, (C4_cycle_timing 5 0 2).1 (by norm_num)⟩,
    ⟨by norm_num, (C4_cycle_timing 1 0 3).2 (by norm_num)⟩⟩

/-- C5: `send_metric` is total (the `OSError` of an unreachable network
or timeout is swallowed, nothing propagates to the caller), the socket is
closed last regardless of the outcome, the datagram is attempted with the
same payload whether or not delivery succeeds, and within a cycle the
sequence of attempted sends is identical under every network oracle — a
failed send never suppresses the later sends of the same cycle. -/
theorem C5_send_failures_swallowed (cfg : Config) (name : String)
    (v : Option PyFloat) (mtype : String) (ok : Bool) :
    (send_metric cfg name v mtype ok).getLast? = some Ev.sockClose
    ∧ sendtoPayloads (send_metric cfg name v mtype ok) =
        [mkPayload cfg.metricsPfx name v mtype]
    ∧ ∀ (indoor : Option IndoorSensor) (outdoor : Option OutdoorSensor)
        (net net' : List Bool),
        sendtoPayloads (capture_sample cfg indoor outdoor net).1 =
          sendtoPayloads (capture_sample cfg indoor outdoor net').1 := by
  refine ⟨rfl, rfl, fun indoor outdoor net net' => ?_⟩
  rw [capture_sample_payloads, capture_sample_payloads]

/-- The indoor sensor of the end-to-end scenario: the read yields
temperature 21.5, humidity 40.2, pressure 1013.0. -/
def scenarioIndoorSensor : IndoorSensor :=
  { gasStatus := 0, humidityOversample := 4, temperatureOversample := 4,
    pressureOversample := 4,
    readOutcome := IndoorReadOutcome.newData
      { neg := false, intPart := 21, fracDigits := "5" }
      { neg := false, intPart := 40, fracDigits := "2" }
      { neg := false, intPart := 1013, fracDigits := "0" } }

/-- C6: every metric is one datagram whose payload is exactly
`<pfx>.<name>:<value>|<type>` with type code `g` for gauge, and the
end-to-end scenario (indoor 21.5 / 40.2 / 1013.0, outdoor 18.0,
name pfx `atmo`) produces exactly the four expected datagrams. -/
theorem C6_wire_format :
    (∀ (cfg : Config) (name : String) (v : Option PyFloat) (mtype : String) (ok : Bool),
      send_metric cfg name v mtype ok =
        [Ev.sockOpen, Ev.sockSetTimeout cfg.graphiteTimeout,
          Ev.sendto (cfg.metricsPfx ++ "." ++ name ++ ":" ++ pyStrOpt v ++ "|" ++ mtype) ok,
          Ev.sockClose])
    ∧ sendtoPayloads (capture_sample defaultConfig (some scenarioIndoorSensor)
        (some exampleOutdoorSensor) []).1 =
      ["atmo.humidity:40.2|g", "atmo.pressure:1013.0|g",
        "atmo.temperature_indoor:21.5|g", "atmo.temperature_outdoor:18.0|g"] := by
  refine ⟨fun cfg name v mtype ok => ?_, ?_⟩
  · simp [send_metric, mkPayload, String.append_assoc]
  · rw [capture_sample_payloads]
    rfl

/-- C7: in every cycle with the outdoor handle present, exactly one
outdoor-temperature send is appended after whatever the indoor part of
the cycle produced, independent of the indoor handle and of the indoor
read outcome; and a cycle with both handles absent produces no events at
all — zero sensor reads and zero sends. -/
theorem C7_outdoor_send_independent (cfg : Config) (indoor : Option IndoorSensor)
    (o : OutdoorSensor) (net : List Bool) :
    sendtoPayloads (capture_sample cfg indoor (some o) net).1 =
      sendtoPayloads (capture_sample cfg indoor none net).1 ++
        [mkPayload cfg.metricsPfx cfg.metricTemperatureOutdoor (some o.temperature) "g"]
    ∧ capture_sample cfg none none net = ([], none)
    ∧ readCount (capture_sample cfg none none net).1 = 0
    ∧ sendtoPayloads (capture_sample cfg none none net).1 = [] := by
  refine ⟨?_, rfl, rfl, rfl⟩
  rw [capture_sample_payloads, capture_sample_payloads]
  simp [expectedPayloads]

/-- C8: for every valid oversampling level, `initalize_indoor_sensor` is
idempotent — running it twice at the same level leaves the handle in the
same configured state as running it once: gas measurement disabled and
all three oversampling registers set to the level. -/
theorem C8_initialize_idempotent (s : IndoorSensor) (level : Nat)
    (_hvalid : validOversample level) :
    initalize_indoor_sensor (initalize_indoor_sensor s level) level =
        initalize_indoor_sensor s level
    ∧ (initalize_indoor_sensor s level).gasStatus = DISABLE_GAS_MEAS
    ∧ (initalize_indoor_sensor s level).humidityOversample = level
    ∧ (initalize_indoor_sensor s level).temperatureOversample = level
    ∧ (initalize_indoor_sensor s level).pressureOversample = level :=
  ⟨rfl, rfl, rfl, rfl, rfl⟩

/-- Witness for C8 at a concrete handle and the default level `OS_8X`. -/
theorem C8_initialize_idempotent_witness :
    validOversample OS_8X
    ∧ (initalize_indoor_sensor (initalize_indoor_sensor exampleIndoorSensor OS_8X) OS_8X =
          initalize_indoor_sensor exampleIndoorSensor OS_8X
        ∧ (initalize_indoor_sensor exampleIndoorSensor OS_8X).gasStatus = DISABLE_GAS_MEAS
        ∧ (initalize_indoor_sensor exampleIndoorSensor OS_8X).humidityOversample = OS_8X
        ∧ (initalize_indoor_sensor exampleIndoorSensor OS_8X).temperatureOversample = OS_8X
        ∧ (initalize_indoor_sensor exampleIndoorSensor OS_8X).pressureOversample = OS_8X) :=
  ⟨by decide, C8_initialize_idempotent exampleIndoorSensor OS_8X (by decide)⟩

/-- C9: when the indoor read yields a sample and the outdoor handle is
present, the four sends of the cycle occur in the fixed source order
humidity, pressure, indoor temperature, outdoor temperature. -/
theorem C9_send_order (cfg : Config) (g ho tos po : Nat) (t h p : PyFloat)
    (o : OutdoorSensor) (net : List Bool) :
    sendtoPayloads (capture_sample cfg
        (some { gasStatus := g, humidityOversample := ho, temperatureOversample := tos,
                pressureOversample := po,
                readOutcome := IndoorReadOutcome.newData t h p }) (some o) net).1 =
      [mkPayload cfg.metricsPfx cfg.metricHumidity (some h) "g",
        mkPayload cfg.metricsPfx cfg.metricPressure (some p) "g",
        mkPayload cfg.metricsPfx cfg.metricTemperatureIndoor (some t) "g",
        mkPayload cfg.metricsPfx cfg.metricTemperatureOutdoor (some o.temperature) "g"] := by
  rw [capture_sample_payloads]
  rfl

/-- C10: every return of `get_indoor_sensor` hands back a sensor handle;
the dead `return None` is never taken (over every finite oracle trace the
result is either a handle or the loop still running), and a run of `n`
recoverable open failures before the first success returns the first
successful handle after logging and sleeping the retry interval once per
failure. -/
theorem C10_indoor_acquire_never_none (ival : ℚ) (trace : List OpenOutcome)
    (n : Nat) (s : IndoorSensor) (rest : List OpenOutcome) :
    (get_indoor_sensor ival trace = AcquireResult.loopContinues
      ∨ ∃ s2 evs, get_indoor_sensor ival trace = AcquireResult.acquired s2 evs)
    ∧ get_indoor_sensor ival
        (List.replicate n OpenOutcome.recoverableError ++ OpenOutcome.ok s :: rest) =
      AcquireResult.acquired s
        (List.flatten (List.replicate n [Ev.logError retryLogMsg, Ev.sleep ival])) := by
  constructor
  · induction trace with
    | nil => exact Or.inl rfl
    | cons head tail ih =>
        cases head with
        | ok s0 => exact Or.inr ⟨s0, [], rfl⟩
        | recoverableError =>
            rcases ih with hloop | ⟨s2, evs, hacq⟩
            · exact Or.inl (by simp [get_indoor_sensor, hloop])
            · exact Or.inr ⟨s2, Ev.logError retryLogMsg :: Ev.sleep ival :: evs,
                by simp [get_indoor_sensor, hacq]⟩
  · induction n with
    | zero => rfl
    | succ m ih => simp [List.replicate_succ, get_indoor_sensor, ih]

end Atmo
